import Mathlib

set_option autoImplicit false

/- Verification of scripts/build_mapbox_geojson.py: a one-shot batch transform
   from a CSV table to a GeoJSON FeatureCollection.

   Modelling conventions (shallow embedding):
   * a CSV cell is `Option String` (Python `None` versus text);
   * Python numbers produced by float()/int() are modelled as exact rationals
     and integers; the data this pipeline handles never reaches IEEE rounding,
     overflow, inf/nan or underscore literal syntax, so the decimal fragment of
     the Python float grammar is embedded with exact arithmetic;
   * a Python dict is an ordered association list (Python dicts preserve
     insertion order, and assignment to an existing key keeps its position);
   * the filesystem and the external csv.DictReader are an environment record:
     whether a path exists, and the (fieldnames, rows) the reader yields. -/

/-- The whitespace characters stripped by Python str.strip (ASCII fragment). -/
def isPyWS (c : Char) : Bool :=
  c == ' ' || c == '\t' || c == '\n' || c == '\x0d' || c == '\x0b' || c == '\x0c'

/-- Strip leading and trailing whitespace from a character list. -/
def stripChars (l : List Char) : List Char :=
  ((l.dropWhile isPyWS).reverse.dropWhile isPyWS).reverse

/-- Python str.strip on strings. -/
def pstrip (s : String) : String := ⟨stripChars s.data⟩

/-- Characters kept by the source code s.replace(",", "").replace("$", ""). -/
def keepCD (c : Char) : Bool := c != ',' && c != '$'

/-- The source code s.replace(",", "").replace("$", ""): deletes every occurrence
of ',' and '$', wherever it appears in the string. -/
def stripCD (s : String) : String := ⟨s.data.filter keepCD⟩

/-- Numeric value of a list of decimal digits. -/
def digitsVal (ds : List Char) : ℕ :=
  ds.foldl (fun a c => 10 * a + (c.toNat - 48)) 0

/-- Exponent suffix of a Python float literal: optional sign then digits. -/
def parseExpPart (cs : List Char) : Option ℤ :=
  match cs with
  | '+' :: ds => if ds ≠ [] ∧ ds.all Char.isDigit then some (digitsVal ds : ℤ) else none
  | '-' :: ds => if ds ≠ [] ∧ ds.all Char.isDigit then some (-(digitsVal ds : ℤ)) else none
  | ds => if ds ≠ [] ∧ ds.all Char.isDigit then some (digitsVal ds : ℤ) else none

/-- Unsigned mantissa of a Python float literal: digits, optionally a dot and
further digits, with at least one digit overall.  Returns the value of the digit string,, the number of fractional digits, and the unconsumed rest. -/
def parseMantissa (cs : List Char) : Option ((ℕ × ℕ) × List Char) :=
  let ip := cs.takeWhile Char.isDigit
  let r1 := cs.dropWhile Char.isDigit
  match r1 with
  | '.' :: r2 =>
      let fp := r2.takeWhile Char.isDigit
      let r3 := r2.dropWhile Char.isDigit
      if ip.isEmpty && fp.isEmpty then none
      else some ((digitsVal (ip ++ fp), fp.length), r3)
  | _ =>
      if ip.isEmpty then none
      else some ((digitsVal ip, 0), r1)

/-- Optional `e`/`E` exponent suffix after the mantissa; an empty rest is
exponent 0, anything else is a parse failure. -/
def parseExpSuffix (cs : List Char) : Option ℤ :=
  match cs with
  | [] => some 0
  | 'e' :: rest => parseExpPart rest
  | 'E' :: rest => parseExpPart rest
  | _ => none

/-- sg * m * 10^(e - k) as an exact rational, built from integer arithmetic
(kept to a single normalising `mkRat` so the term evaluates by reduction). -/
def decValue (sg : ℤ) (m k : ℕ) (e : ℤ) : ℚ :=
  if (k : ℤ) ≤ e then mkRat (sg * m * 10 ^ (e - k).toNat) 1
  else mkRat (sg * m) (10 ^ ((k : ℤ) - e).toNat)

/-- Mantissa with exponent suffix, scaled by a sign. -/
def parseUnsigned (sg : ℤ) (cs : List Char) : Option ℚ :=
  match parseMantissa cs with
  | none => none
  | some ((m, k), rest) =>
    match parseExpSuffix rest with
    | none => none
    | some e => some (decValue sg m k e)

/-- Signed decimal literal: an optional leading '+' or '-'. -/
def parseSigned (cs : List Char) : Option ℚ :=
  match cs with
  | '+' :: r => parseUnsigned 1 r
  | '-' :: r => parseUnsigned (-1) r
  | _ => parseUnsigned 1 cs

/-- the Python float(s) builtin on the decimal fragment of its grammar: surrounding
whitespace is tolerated, failure (ValueError) is `none`. -/
def pyFloat (s : String) : Option ℚ :=
  parseSigned (stripChars s.data)

/-- Truncation toward zero, as Python int() applied to a float. -/
def qtrunc (q : ℚ) : ℤ :=
  if 0 ≤ q.num then (q.num.natAbs / q.den : ℕ) else -((q.num.natAbs / q.den : ℕ) : ℤ)

/-- Source `to_float`: None passes through, text is stripped, an empty result
is None, otherwise commas and dollar signs are deleted and the rest is parsed
as a Python float; parse failure is None. -/
def to_float (val : Option String) : Option ℚ :=
  match val with
  | none => none
  | some v =>
    let s := pstrip v
    if s = "" then none
    else pyFloat (stripCD s)

/-- Source `to_int`: same trimming and stripping as `to_float`, then
int(float(s)): parse as a float and truncate toward zero; failure is None. -/
def to_int (val : Option String) : Option ℤ :=
  match val with
  | none => none
  | some v =>
    let s := pstrip v
    if s = "" then none
    else
      match pyFloat (stripCD s) with
      | some q => some (qtrunc q)
      | none => none

/-- A coerced cell value as stored into the properties of a Feature: Python None,
a string, an int or a float. -/
inductive PyVal where
  | vnone
  | vstr (s : String)
  | vint (n : ℤ)
  | vfloat (q : ℚ)
  deriving DecidableEq, Repr

/-- Source `numeric_int_cols`: the fixed set of count-like columns coerced to
int inside `to_number_if_possible`. -/
def numeric_int_cols : List String :=
  ["Event #", "Expedition #", "Year", "ZipCode",
   "Total Volunteers", "Total Patients",
   "Animals Served", "Extractions", "Fillings", "Cleanings",
   "Glasses", "Eye Exams", "Medical Exams", "Women\x27s Health"]

/-- Source `to_number_if_possible`: dispatch per column name.  "Total Value of
Care" goes through float coercion (keeps cents), the count columns through int
coercion, everything else stays trimmed text; a blank cell is None, and a
failed numeric coercion falls back to the trimmed text. -/
def to_number_if_possible (key : String) (val : Option String) : PyVal :=
  match val with
  | none => .vnone
  | some v =>
    let s := pstrip v
    if s = "" then .vnone
    else if key = "Total Value of Care" then
      match to_float (some s) with
      | some f => .vfloat f
      | none => .vstr s
    else if key ∈ numeric_int_cols then
      match to_int (some s) with
      | some n => .vint n
      | none => .vstr s
    else .vstr s

/-- A CSV row as csv.DictReader yields it: the fieldnames in header order,
each mapped to its cell (None for a padded short row). -/
abbrev Row : Type := List (String × Option String)

/-- Python row.get(k): None when the key is absent, otherwise the cell. -/
def rowGet (r : Row) (k : String) : Option String :=
  match List.lookup k r with
  | none => none
  | some c => c

/-- Python `a or b` on optional strings: the left operand unless it is falsy
(None or the empty string). -/
def pyOr (a b : Option String) : Option String :=
  match a with
  | none => b
  | some s => if s = "" then b else some s

/-- Python truthiness of an optional string: None and "" are falsy. -/
def truthyStr : Option String → Bool
  | none => false
  | some s => s != ""

/-- Python dict assignment d[k] = v on an ordered association list: an existing
key keeps its position and gets the new value, a new key is appended. -/
def dictSet (d : List (String × PyVal)) (k : String) (v : PyVal) : List (String × PyVal) :=
  if d.any (fun p => p.1 == k) then d.map (fun p => if p.1 = k then (k, v) else p)
  else d ++ [(k, v)]

/-- The properties loop of the source: every column except the two coordinate
columns, in header order, coerced per column name. -/
def propsBase (lat_key lon_key : String) (r : Row) : List (String × PyVal) :=
  r.foldl (fun acc kv =>
    if kv.1 = lat_key ∨ kv.1 = lon_key then acc
    else dictSet acc kv.1 (to_number_if_possible kv.1 kv.2)) []

/-- row.get("Event #") or row.get("Event#") or row.get("Event"). -/
def eventChain (r : Row) : Option String :=
  pyOr (rowGet r "Event #") (pyOr (rowGet r "Event#") (rowGet r "Event"))

/-- row.get("Expedition #") or row.get("Expedition#") or row.get("Expedition"). -/
def expeditionChain (r : Row) : Option String :=
  pyOr (rowGet r "Expedition #") (pyOr (rowGet r "Expedition#") (rowGet r "Expedition"))

/-- The source statement `if event_id: props["_event_id"] = str(event_id).strip()`. -/
def withEvent (r : Row) (d : List (String × PyVal)) : List (String × PyVal) :=
  if truthyStr (eventChain r) then
    dictSet d "_event_id" (.vstr (pstrip ((eventChain r).getD "")))
  else d

/-- The matching conditional of the source assignment of `_expedition_id`. -/
def withExped (r : Row) (d : List (String × PyVal)) : List (String × PyVal) :=
  if truthyStr (expeditionChain r) then
    dictSet d "_expedition_id" (.vstr (pstrip ((expeditionChain r).getD "")))
  else d

/-- The full properties dict of a Feature for row ordinal i: the coerced
columns, then _row, then _event_id and _expedition_id when their chains are
truthy, in the assignment order of the source. -/
def buildProps (lat_key lon_key : String) (i : ℕ) (r : Row) : List (String × PyVal) :=
  withExped r (withEvent r (dictSet (propsBase lat_key lon_key r) "_row" (.vint (i : ℤ))))

/-- One output Feature: the literal dict of the source, with constant tags,
coordinates [lon, lat] and the properties dict. -/
structure Feature where
  ftype : String
  gtype : String
  coordinates : List ℚ
  properties : List (String × PyVal)
  deriving DecidableEq, Repr

/-- The feature literal appended for a kept row. -/
def mkFeat (lon lat : ℚ) (props : List (String × PyVal)) : Feature :=
  { ftype := "Feature", gtype := "Point", coordinates := [lon, lat], properties := props }

/-- Python repr of an optional string, as interpolated by the skip diagnostic
(quote escaping inside the value is not modelled; no claim depends on it). -/
def pyRepr : Option String → String
  | none => "None"
  | some s => "\x27" ++ s ++ "\x27"

/-- The skip diagnostic line for row ordinal i. -/
def skipMsg (i : ℕ) (latRaw lonRaw ev city : Option String) : String :=
  "SKIPPED row " ++ toString i ++ ": lat=" ++ pyRepr latRaw ++ " lon=" ++ pyRepr lonRaw ++
    " event=" ++ pyRepr ev ++ " city=" ++ pyRepr city

/-- The row loop of the source: accumulates features, the skip counter and the
emitted skip diagnostics, with i the 1-based ordinal of the next row. -/
def processRows (lat_key lon_key : String) :
    ℕ → List Row → List Feature → ℕ → List String → List Feature × ℕ × List String
  | _, [], feats, skipped, logs => (feats, skipped, logs)
  | i, r :: rest, feats, skipped, logs =>
    match to_float (rowGet r lat_key), to_float (rowGet r lon_key) with
    | some lat, some lon =>
        processRows lat_key lon_key (i + 1) rest
          (feats ++ [mkFeat lon lat (buildProps lat_key lon_key i r)]) skipped logs
    | _, _ =>
        processRows lat_key lon_key (i + 1) rest feats (skipped + 1)
          (logs ++ [skipMsg i (rowGet r lat_key) (rowGet r lon_key)
            (rowGet r "Event #") (rowGet r "City")])

/-- Source INPUT_CANDIDATES. -/
def INPUT_CANDIDATES : List String :=
  ["master clinic mapbox file.csv", "master clinic mapbox file.cvs"]

/-- Source OUTPUT_FILE. -/
def OUTPUT_FILE : String := "MapBox Dataset.geojson"

/-- Source HEADER_ALIASES dict. -/
def HEADER_ALIASES (k : String) : List String :=
  if k = "latitude" then ["Latitude", "Lat", "LAT", "lat", "latitude"]
  else if k = "longitude" then
    ["Longitude", "Longitutde", "Long", "Lng", "LON", "lon", "lng", "longitude"]
  else []

/-- Source `find_input_file`: the first candidate that exists. -/
def find_input_file (pathExists : String → Bool) : Option String :=
  INPUT_CANDIDATES.find? pathExists

/-- Source `pick_header`: the first alias, in declared order, present among
the actual fieldnames. -/
def pick_header (row_fieldnames : List String) (aliases : List String) : Option String :=
  match aliases with
  | [] => none
  | a :: rest =>
    if a ∈ row_fieldnames then some a else pick_header row_fieldnames rest

/-- The external world consulted by main: which paths exist, and what
csv.DictReader yields for a file (fieldnames — None for an empty file — and
the rows). -/
structure Env where
  pathExists : String → Bool
  readCsv : String → Option (List String) × List Row

/-- The three fatal setup errors, each with the data its message reports. -/
inductive Fatal where
  | noInput (candidates : List String)
  | noHeaders
  | noLatLon (found : List String)
  deriving DecidableEq, Repr

/-- The lines printed by each fatal error before sys.exit(1). -/
def fatalLines : Fatal → List String
  | .noInput cands =>
      "ERROR: Could not find input CSV. Expected one of:" :: cands.map (fun n => " - " ++ n)
  | .noHeaders => ["ERROR: CSV appears to have no headers."]
  | .noLatLon fns =>
      ["ERROR: Could not find Latitude/Longitude columns.",
       "Found headers: " ++ toString fns]

/-- The output document: the literal geojson dict of the source. -/
structure GeoDoc where
  dtype : String
  features : List Feature
  deriving DecidableEq, Repr

/-- A successful run: the document, the file written, the diagnostics and the
final summary lines, plus the reported counts. -/
structure MainOk where
  doc : GeoDoc
  outName : String
  outBytes : String
  logs : List String
  summary : List String
  featureCount : ℕ
  skippedCount : ℕ
  deriving DecidableEq, Repr

/-- JSON string escaping as json.dump with ensure_ascii=False performs it
(quote, backslash and the common control characters). -/
def jescChar (c : Char) : List Char :=
  if c = '\x22' then ['\\', '\x22']
  else if c = '\\' then ['\\', '\\']
  else if c = '\n' then ['\\', 'n']
  else if c = '\t' then ['\\', 't']
  else if c = '\x0d' then ['\\', 'r']
  else [c]

/-- Escape a whole string for JSON output. -/
def jescape (s : String) : String := ⟨(s.data.map jescChar).flatten⟩

/-- Zero-pad a digit string on the left to width w. -/
def padLeftZeros (s : String) (w : ℕ) : String :=
  ⟨List.replicate (w - s.length) '0' ++ s.data⟩

/-- Decimal rendering of a float value, as json.dump prints Python floats;
every float this program builds comes from a decimal literal, so its
denominator divides a power of ten and the expansion is exact. -/
def qToDec (q : ℚ) : String :=
  match (List.range 40).find? (fun k => (10 : ℕ) ^ k % q.den == 0) with
  | some k =>
      let scaled : ℤ := q.num * (((10 : ℕ) ^ k / q.den : ℕ) : ℤ)
      let sgn := if scaled < 0 then "-" else ""
      let ds := toString scaled.natAbs
      if k = 0 then sgn ++ ds ++ ".0"
      else
        let padded := padLeftZeros ds (k + 1)
        sgn ++ (⟨padded.data.take (padded.length - k)⟩ : String) ++ "." ++
          (⟨padded.data.drop (padded.length - k)⟩ : String)
  | none => toString q.num ++ " / " ++ toString q.den

/-- Serialize one property value. -/
def pyValSer : PyVal → String
  | .vnone => "null"
  | .vstr s => "\x22" ++ jescape s ++ "\x22"
  | .vint n => toString n
  | .vfloat q => qToDec q

/-- Serialize one key/value pair of a JSON object. -/
def kvSer (kv : String × PyVal) : String :=
  "\x22" ++ jescape kv.1 ++ "\x22: " ++ pyValSer kv.2

/-- Serialize a properties dict. -/
def propsSer (ps : List (String × PyVal)) : String :=
  "\x7b" ++ String.intercalate ", " (ps.map kvSer) ++ "\x7d"

/-- Serialize one Feature as json.dump lays it out. -/
def featureSer (f : Feature) : String :=
  "\x7b\x22type\x22: \x22" ++ jescape f.ftype ++ "\x22, \x22geometry\x22: " ++
    "\x7b\x22type\x22: \x22" ++ jescape f.gtype ++ "\x22, \x22coordinates\x22: [" ++
    String.intercalate ", " (f.coordinates.map qToDec) ++ "]\x7d, \x22properties\x22: " ++
    propsSer f.properties ++ "\x7d"

/-- Serialize the whole output document. -/
def docSer (d : GeoDoc) : String :=
  "\x7b\x22type\x22: \x22" ++ jescape d.dtype ++ "\x22, \x22features\x22: [" ++
    String.intercalate ", " (d.features.map featureSer) ++ "]\x7d"

/-- Source `main`, as a function of the environment: locate the input, check
the header, resolve the coordinate columns, run the row loop and write the
document, or stop at the first fatal error. -/
def runMain (env : Env) : Except Fatal MainOk :=
  match find_input_file env.pathExists with
  | none => .error (.noInput INPUT_CANDIDATES)
  | some in_file =>
    match env.readCsv in_file with
    | (none, _) => .error .noHeaders
    | (some fns, rows) =>
      if fns.isEmpty then .error .noHeaders
      else
        match pick_header fns (HEADER_ALIASES "latitude"),
              pick_header fns (HEADER_ALIASES "longitude") with
        | some lat_key, some lon_key =>
          let res := processRows lat_key lon_key 1 rows [] 0 []
          let doc : GeoDoc := { dtype := "FeatureCollection", features := res.1 }
          .ok { doc := doc
                outName := OUTPUT_FILE
                outBytes := docSer doc
                logs := res.2.2
                summary := ["OK: Wrote " ++ OUTPUT_FILE,
                  "Features: " ++ toString res.1.length ++
                    "  Skipped (missing lat/lon): " ++ toString res.2.1]
                featureCount := res.1.length
                skippedCount := res.2.1 }
        | _, _ => .error (.noLatLon fns)

deriving instance DecidableEq for Except

/-- The process exit status of a run. -/
def exitCode : Except Fatal MainOk → ℕ
  | .error _ => 1
  | .ok _ => 0

/-- The files written by a run: nothing on a fatal error, the single output
document otherwise. -/
def writes : Except Fatal MainOk → List (String × String)
  | .error _ => []
  | .ok o => [(o.outName, o.outBytes)]

/-- Whether the row loop skips a row: either coordinate cell fails float
coercion. -/
def isSkipped (lat_key lon_key : String) (r : Row) : Bool :=
  (to_float (rowGet r lat_key)).isNone || (to_float (rowGet r lon_key)).isNone

/-- The per-row effect of the loop on one row, described row-locally: the Feature built
for a kept row, None for a skipped one. -/
def rowFeature (lat_key lon_key : String) (i : ℕ) (r : Row) : Option Feature :=
  match to_float (rowGet r lat_key), to_float (rowGet r lon_key) with
  | some lat, some lon => some (mkFeat lon lat (buildProps lat_key lon_key i r))
  | _, _ => none

/-- The diagnostic emitted for one row: a skip line for a skipped row,
nothing for a kept one. -/
def rowSkipLog (lat_key lon_key : String) (i : ℕ) (r : Row) : Option String :=
  match to_float (rowGet r lat_key), to_float (rowGet r lon_key) with
  | some _, some _ => none
  | _, _ => some (skipMsg i (rowGet r lat_key) (rowGet r lon_key)
      (rowGet r "Event #") (rowGet r "City"))

/-- The source row ordinal recorded in the properties of a Feature under _row. -/
def featOrdinal (f : Feature) : Option ℤ :=
  match List.lookup "_row" f.properties with
  | some (.vint n) => some n
  | _ => none

/-- The first of a list of optional cells that is present with a non-empty
value. -/
def firstNonEmpty (l : List (Option String)) : Option String :=
  (l.filterMap id).find? (fun s => s != "")

/-- The bytes a run leaves on disk: None on a fatal error. -/
def runBytes : Except Fatal MainOk → Option (String × String)
  | .error _ => none
  | .ok o => some (o.outName, o.outBytes)

/-- A kept row that has no Event column under any spelling, but does have a
column literally named "_event_id". -/
def rowWithEventKey : Row :=
  [("Latitude", some "1"), ("Longitude", some "2"), ("_event_id", some "x")]

/-- An environment with no input file at all. -/
def envNoFiles : Env :=
  { pathExists := fun _ => false, readCsv := fun _ => (none, []) }

/-- An environment whose input exists, has coordinate headers and no rows. -/
def envEmptyOk : Env :=
  { pathExists := fun n => n == "master clinic mapbox file.csv",
    readCsv := fun _ => (some ["Latitude", "Longitude"], []) }

/-- The successful run on `envEmptyOk`, written out in full. -/
def outEmptyOk : MainOk :=
  { doc := { dtype := "FeatureCollection", features := [] }
    outName := OUTPUT_FILE
    outBytes := "\x7b\x22type\x22: \x22FeatureCollection\x22, \x22features\x22: []\x7d"
    logs := []
    summary := ["OK: Wrote MapBox Dataset.geojson",
                "Features: 0  Skipped (missing lat/lon): 0"]
    featureCount := 0
    skippedCount := 0 }

/-! ### Lemmas about whitespace stripping -/

theorem dropWhile_head_false {p : Char → Bool} {l : List Char} {a : Char} {t : List Char}
    (h : l.dropWhile p = a :: t) : p a = false := by
  have := List.head_dropWhile_not p (l := l) (w := by simp [h])
  simpa [h] using this

theorem dropWhile_cons_false {p : Char → Bool} {a : Char} {t : List Char}
    (h : p a = false) : (a :: t).dropWhile p = a :: t := by
  simp [List.dropWhile_cons, h]

/-- Stripping is idempotent: the result of `stripChars` has no whitespace at
either end, so stripping it again changes nothing. -/
theorem stripChars_idem (l : List Char) : stripChars (stripChars l) = stripChars l := by
  have hd1 : stripChars l = ((l.dropWhile isPyWS).reverse.dropWhile isPyWS).reverse := rfl
  have hA : (stripChars l).dropWhile isPyWS = stripChars l := by
    rcases hx : stripChars l with _ | ⟨a, t⟩
    · rfl
    · refine dropWhile_cons_false ?_
      obtain ⟨u, hu⟩ := List.dropWhile_suffix (l := (l.dropWhile isPyWS).reverse) isPyWS
      have hd1' : ((l.dropWhile isPyWS).reverse.dropWhile isPyWS).reverse = a :: t := by
        rw [← hd1, hx]
      have hfull : l.dropWhile isPyWS = (a :: t) ++ u.reverse := by
        have := congrArg List.reverse hu
        rw [List.reverse_append, hd1', List.reverse_reverse] at this
        exact this.symm
      exact dropWhile_head_false (t := t ++ u.reverse) (by rw [hfull]; rfl)
  have hB : (stripChars l).reverse.dropWhile isPyWS = (stripChars l).reverse := by
    have : (stripChars l).reverse = (l.dropWhile isPyWS).reverse.dropWhile isPyWS := by
      rw [hd1, List.reverse_reverse]
    rcases hx : (stripChars l).reverse with _ | ⟨b, s⟩
    · rfl
    · exact dropWhile_cons_false (dropWhile_head_false (by rw [← this, hx]))
  show (((stripChars l).dropWhile isPyWS).reverse.dropWhile isPyWS).reverse = stripChars l
  rw [hA, hB, List.reverse_reverse]

theorem pstrip_idem (s : String) : pstrip (pstrip s) = pstrip s := by
  show String.mk (stripChars (stripChars s.data)) = String.mk (stripChars s.data)
  rw [stripChars_idem]

theorem pstrip_eq_empty_iff (s : String) : pstrip s = "" ↔ stripChars s.data = [] := by
  constructor
  · intro h
    have := congrArg String.data h
    simpa [pstrip] using this
  · intro h
    show String.mk (stripChars s.data) = ""
    rw [h]

/-- Re-stripping the already stripped text does not change `to_float`. -/
theorem to_float_pstrip (s : String) : to_float (some (pstrip s)) = to_float (some s) := by
  simp only [to_float, pstrip_idem]

/-- Re-stripping the already stripped text does not change `to_int`. -/
theorem to_int_pstrip (s : String) : to_int (some (pstrip s)) = to_int (some s) := by
  simp only [to_int, pstrip_idem]

/-! ### Lemmas for the comma/dollar deletion argument -/

theorem ws_keepCD {c : Char} (h : isPyWS c = true) : keepCD c = true := by
  simp only [isPyWS, Bool.or_eq_true, beq_iff_eq] at h
  rcases h with (((((h | h) | h) | h) | h) | h) <;> subst h <;> decide

theorem dropWhile_ws_append {w m : List Char} (hw : ∀ c ∈ w, isPyWS c = true) :
    (w ++ m).dropWhile isPyWS = m.dropWhile isPyWS := by
  induction w with
  | nil => rfl
  | cons a t ih =>
    have ha : isPyWS a = true := hw a (by simp)
    simpa [List.dropWhile_cons, ha] using ih (fun c hc => hw c (by simp [hc]))

theorem dropWhile_ws_eq_nil {w : List Char} (hw : ∀ c ∈ w, isPyWS c = true) :
    w.dropWhile isPyWS = [] := by
  rw [List.dropWhile_eq_nil_iff]
  intro x hx
  simp [hw x hx]

/-- Surrounding all-whitespace padding is invisible to `stripChars`. -/
theorem stripChars_ws_pad {w1 w2 m : List Char}
    (h1 : ∀ c ∈ w1, isPyWS c = true) (h2 : ∀ c ∈ w2, isPyWS c = true) :
    stripChars (w1 ++ (m ++ w2)) = stripChars m := by
  unfold stripChars
  rw [dropWhile_ws_append h1, List.dropWhile_append]
  rcases hm : m.dropWhile isPyWS with _ | ⟨a, t⟩
  · simp only [List.isEmpty_nil, if_true]
    rw [dropWhile_ws_eq_nil h2]
  · simp only [List.isEmpty_cons, if_false, Bool.false_eq_true]
    rw [List.reverse_append, dropWhile_ws_append (fun c hc => h2 c (by simpa using hc))]

/-- Deleting commas and dollars leaves all-whitespace padding unchanged. -/
theorem filter_keepCD_pad {w1 w2 m : List Char}
    (h1 : ∀ c ∈ w1, isPyWS c = true) (h2 : ∀ c ∈ w2, isPyWS c = true) :
    (w1 ++ (m ++ w2)).filter keepCD = w1 ++ (m.filter keepCD ++ w2) := by
  rw [List.filter_append, List.filter_append,
    List.filter_eq_self.mpr (fun c hc => ws_keepCD (h1 c hc)),
    List.filter_eq_self.mpr (fun c hc => ws_keepCD (h2 c hc))]

/-- Every character list splits as whitespace padding around its strip. -/
theorem strip_decomp (l : List Char) :
    ∃ w1 w2, l = w1 ++ (stripChars l ++ w2) ∧
      (∀ c ∈ w1, isPyWS c = true) ∧ (∀ c ∈ w2, isPyWS c = true) := by
  refine ⟨l.takeWhile isPyWS, ((l.dropWhile isPyWS).reverse.takeWhile isPyWS).reverse,
    ?_, fun c hc => List.mem_takeWhile_imp hc,
    fun c hc => List.mem_takeWhile_imp (by simpa using hc)⟩
  conv_lhs => rw [← List.takeWhile_append_dropWhile isPyWS l]
  congr 1
  conv_lhs => rw [← List.reverse_reverse (l.dropWhile isPyWS),
    ← List.takeWhile_append_dropWhile isPyWS (l.dropWhile isPyWS).reverse]
  rw [List.reverse_append]
  rfl

/-- Float coercion coincides with parsing the comma/dollar-deleted input:
the early trim and emptiness test of `to_float` change nothing, because
deletion of ',' and '$' commutes with whitespace stripping. -/
theorem to_float_eq_pyFloat_stripCD (s : String) :
    to_float (some s) = pyFloat (stripCD s) := by
  obtain ⟨w1, w2, hd, h1, h2⟩ := strip_decomp s.data
  show (if pstrip s = "" then none else pyFloat (stripCD (pstrip s))) = pyFloat (stripCD s)
  by_cases hs : pstrip s = ""
  · rw [if_pos hs]
    have hnil : stripChars s.data = [] := (pstrip_eq_empty_iff s).mp hs
    rw [hnil] at hd
    show none = parseSigned (stripChars (s.data.filter keepCD))
    rw [hd, filter_keepCD_pad h1 h2, stripChars_ws_pad h1 h2]
    rfl
  · rw [if_neg hs]
    show parseSigned (stripChars ((pstrip s).data.filter keepCD)) =
      parseSigned (stripChars (s.data.filter keepCD))
    have hps : (pstrip s).data = stripChars s.data := rfl
    conv_rhs => rw [hd, filter_keepCD_pad h1 h2, stripChars_ws_pad h1 h2]
    rw [hps]

/-! ### Lemmas about the ordered-dict model -/

theorem lookup_cons_self {β : Type} (k : String) (w : β) (t : List (String × β)) :
    List.lookup k ((k, w) :: t) = some w := by
  simp [List.lookup]

theorem lookup_cons_ne {β : Type} {a k : String} (w : β) (t : List (String × β))
    (h : a ≠ k) : List.lookup k ((a, w) :: t) = List.lookup k t := by
  simp only [List.lookup]
  have : (k == a) = false := by
    simp only [beq_eq_false_iff_ne, ne_eq]
    exact fun h2 => absurd h2.symm h
  simp [this]

theorem lookup_setMap_found (k : String) (v : PyVal) :
    ∀ d : List (String × PyVal), d.any (fun p => p.1 == k) = true →
      List.lookup k (d.map (fun p => if p.1 = k then (k, v) else p)) = some v := by
  intro d
  induction d with
  | nil => intro h; simp at h
  | cons p t ih =>
    intro h
    rcases p with ⟨a, w⟩
    by_cases hp : a = k
    · subst hp
      simp only [List.map_cons, if_pos rfl]
      exact lookup_cons_self a v _
    · have ht : t.any (fun p => p.1 == k) = true := by
        simpa [List.any_cons, beq_eq_false_iff_ne, hp] using h
      simp only [List.map_cons, if_neg hp]
      rw [lookup_cons_ne _ _ hp]
      exact ih ht

theorem lookup_setMap_ne (k k' : String) (v : PyVal) (hne : k' ≠ k) :
    ∀ d : List (String × PyVal),
      List.lookup k' (d.map (fun p => if p.1 = k then (k, v) else p)) =
        List.lookup k' d := by
  intro d
  induction d with
  | nil => rfl
  | cons p t ih =>
    rcases p with ⟨a, w⟩
    by_cases hp : a = k
    · subst hp
      simp only [List.map_cons]
      rw [if_pos trivial]
      rw [lookup_cons_ne _ _ (fun h => hne h.symm), lookup_cons_ne _ _ (fun h => hne h.symm)]
      exact ih
    · simp only [List.map_cons, if_neg hp]
      by_cases ha : a = k'
      · subst ha
        rw [lookup_cons_self, lookup_cons_self]
      · rw [lookup_cons_ne _ _ ha, lookup_cons_ne _ _ ha]
        exact ih

theorem lookup_append_single_self (k : String) (v : PyVal) :
    ∀ d : List (String × PyVal), d.any (fun p => p.1 == k) = false →
      List.lookup k (d ++ [(k, v)]) = some v := by
  intro d
  induction d with
  | nil => intro _; exact lookup_cons_self k v []
  | cons p t ih =>
    intro h
    rcases p with ⟨a, w⟩
    have hp : a ≠ k := by
      intro hak
      subst hak
      simp [List.any_cons] at h
    have ht : t.any (fun p => p.1 == k) = false := by
      simpa [List.any_cons, beq_eq_false_iff_ne, hp] using h
    rw [List.cons_append, lookup_cons_ne _ _ hp]
    exact ih ht

theorem lookup_append_single_ne (k k' : String) (v : PyVal) (hne : k' ≠ k) :
    ∀ d : List (String × PyVal),
      List.lookup k' (d ++ [(k, v)]) = List.lookup k' d := by
  intro d
  induction d with
  | nil =>
    simp only [List.nil_append]
    rw [lookup_cons_ne _ _ (fun h => absurd h.symm hne)]
  | cons p t ih =>
    rcases p with ⟨a, w⟩
    by_cases ha : a = k'
    · subst ha
      rw [List.cons_append, lookup_cons_self, lookup_cons_self]
    · rw [List.cons_append, lookup_cons_ne _ _ ha, lookup_cons_ne _ _ ha]
      exact ih

/-- Assigning a key makes lookup on that key yield the assigned value. -/
theorem lookup_dictSet_self (d : List (String × PyVal)) (k : String) (v : PyVal) :
    List.lookup k (dictSet d k v) = some v := by
  unfold dictSet
  split
  case isTrue h => exact lookup_setMap_found k v d h
  case isFalse h =>
    exact lookup_append_single_self k v d (by rw [← Bool.not_eq_true]; exact h)

/-- Assigning a key does not change lookup on a different key. -/
theorem lookup_dictSet_ne (d : List (String × PyVal)) (k k' : String) (v : PyVal)
    (hne : k' ≠ k) : List.lookup k' (dictSet d k v) = List.lookup k' d := by
  unfold dictSet
  split
  · exact lookup_setMap_ne k k' v hne d
  · exact lookup_append_single_ne k k' v hne d

/-- A key that matches no column of the row is absent from the column
properties. -/
theorem lookup_propsBase_none (lat_key lon_key k : String) (r : Row)
    (h : ∀ kv ∈ r, kv.1 ≠ k) :
    List.lookup k (propsBase lat_key lon_key r) = none := by
  suffices H : ∀ acc : List (String × PyVal), List.lookup k acc = none →
      List.lookup k (r.foldl (fun acc kv =>
        if kv.1 = lat_key ∨ kv.1 = lon_key then acc
        else dictSet acc kv.1 (to_number_if_possible kv.1 kv.2)) acc) = none by
    exact H [] rfl
  induction r with
  | nil => intro acc hacc; exact hacc
  | cons kv t ih =>
    intro acc hacc
    rw [List.foldl_cons]
    refine ih (fun q hq => h q (by simp [hq])) _ ?_
    by_cases hc : kv.1 = lat_key ∨ kv.1 = lon_key
    · rw [if_pos hc]; exact hacc
    · rw [if_neg hc, lookup_dictSet_ne _ _ _ _ (fun he => h kv (by simp) he.symm)]
      exact hacc

/-! ### Lemmas about the Python or-chains -/

theorem pyOr_truthy (a r : Option String) :
    truthyStr (pyOr a r) = (truthyStr a || truthyStr r) := by
  rcases a with _ | s
  · rfl
  · by_cases hs : s = "" <;> simp [pyOr, truthyStr, hs]

theorem pyOr_of_truthy {a : Option String} (r : Option String)
    (h : truthyStr a = true) : pyOr a r = a := by
  rcases a with _ | s
  · simp [truthyStr] at h
  · have hs : s ≠ "" := by simpa [truthyStr] using h
    simp [pyOr, hs]

theorem pyOr_of_falsy {a : Option String} (r : Option String)
    (h : truthyStr a = false) : pyOr a r = r := by
  rcases a with _ | s
  · rfl
  · have hs : s = "" := by simpa [truthyStr] using h
    simp [pyOr, hs]

theorem firstNonEmpty_cons (x : Option String) (l : List (Option String)) :
    firstNonEmpty (x :: l) = if truthyStr x = true then x else firstNonEmpty l := by
  rcases x with _ | s
  · simp [firstNonEmpty, truthyStr]
  · by_cases hs : s = ""
    · simp [firstNonEmpty, truthyStr, hs, List.find?]
    · have hb : (s != "") = true := by simpa using hs
      simp [firstNonEmpty, truthyStr, hs, List.find?, hb]

theorem firstNonEmpty_all_falsy {l : List (Option String)}
    (h : firstNonEmpty l = none) : ∀ x ∈ l, truthyStr x = false := by
  induction l with
  | nil => intro x hx; cases hx
  | cons y t ih =>
    have hy : truthyStr y = false := by
      by_cases hty : truthyStr y = true
      · rw [firstNonEmpty_cons, if_pos hty] at h
        rw [h] at hty
        simp [truthyStr] at hty
      · exact eq_false_of_ne_true hty
    have ht : firstNonEmpty t = none := by
      rw [firstNonEmpty_cons, if_neg (by simp [hy])] at h
      exact h
    intro x hx
    rcases List.mem_cons.mp hx with rfl | hx
    · exact hy
    · exact ih ht x hx

/-- A falsy three-way or-chain, as `firstNonEmpty` sees it. -/
theorem chain3_none {a b c : Option String}
    (h : firstNonEmpty [a, b, c] = none) :
    truthyStr (pyOr a (pyOr b c)) = false := by
  have ha := firstNonEmpty_all_falsy h a (by simp)
  have hb := firstNonEmpty_all_falsy h b (by simp)
  have hc := firstNonEmpty_all_falsy h c (by simp)
  rw [pyOr_truthy, pyOr_truthy, ha, hb, hc]
  rfl

/-- A truthy three-way or-chain selects exactly the first non-empty value. -/
theorem chain3_some {a b c : Option String} {v : String}
    (h : firstNonEmpty [a, b, c] = some v) :
    pyOr a (pyOr b c) = some v ∧ v ≠ "" := by
  by_cases hta : truthyStr a = true
  · rw [firstNonEmpty_cons, if_pos hta] at h
    refine ⟨by rw [pyOr_of_truthy _ hta, h], ?_⟩
    rw [h] at hta
    simpa [truthyStr] using hta
  · have ha := eq_false_of_ne_true hta
    rw [firstNonEmpty_cons, if_neg (by simp [ha])] at h
    rw [pyOr_of_falsy _ ha]
    by_cases htb : truthyStr b = true
    · rw [firstNonEmpty_cons, if_pos htb] at h
      refine ⟨by rw [pyOr_of_truthy _ htb, h], ?_⟩
      rw [h] at htb
      simpa [truthyStr] using htb
    · have hb := eq_false_of_ne_true htb
      rw [firstNonEmpty_cons, if_neg (by simp [hb])] at h
      rw [pyOr_of_falsy _ hb]
      by_cases htc : truthyStr c = true
      · rw [firstNonEmpty_cons, if_pos htc] at h
        refine ⟨h, ?_⟩
        rw [h] at htc
        simpa [truthyStr] using htc
      · have hc := eq_false_of_ne_true htc
        rw [firstNonEmpty_cons, if_neg (by simp [hc])] at h
        simp [firstNonEmpty] at h

/-! ### Lemmas about the built properties -/

theorem lookup_withEvent_other (r : Row) (d : List (String × PyVal)) (k : String)
    (hk : k ≠ "_event_id") : List.lookup k (withEvent r d) = List.lookup k d := by
  unfold withEvent
  split_ifs with h
  · rw [lookup_dictSet_ne _ _ _ _ hk]
  · rfl

theorem lookup_withExped_other (r : Row) (d : List (String × PyVal)) (k : String)
    (hk : k ≠ "_expedition_id") : List.lookup k (withExped r d) = List.lookup k d := by
  unfold withExped
  split_ifs with h
  · rw [lookup_dictSet_ne _ _ _ _ hk]
  · rfl

theorem lookup_row_buildProps (lat_key lon_key : String) (i : ℕ) (r : Row) :
    List.lookup "_row" (buildProps lat_key lon_key i r) = some (.vint (i : ℤ)) := by
  unfold buildProps
  rw [lookup_withExped_other _ _ _ (by decide), lookup_withEvent_other _ _ _ (by decide),
    lookup_dictSet_self]

theorem lookup_event_buildProps_some (lat_key lon_key : String) (i : ℕ) (r : Row)
    (v : String)
    (h : firstNonEmpty [rowGet r "Event #", rowGet r "Event#", rowGet r "Event"] = some v) :
    List.lookup "_event_id" (buildProps lat_key lon_key i r) = some (.vstr (pstrip v)) := by
  obtain ⟨hchain, hv⟩ := chain3_some h
  have hE : eventChain r = some v := hchain
  have hT : truthyStr (eventChain r) = true := by
    rw [hE]; simpa [truthyStr] using hv
  unfold buildProps withEvent
  rw [lookup_withExped_other _ _ _ (by decide), if_pos hT, hE, Option.getD_some,
    lookup_dictSet_self]

theorem lookup_event_buildProps_none (lat_key lon_key : String) (i : ℕ) (r : Row)
    (h : firstNonEmpty [rowGet r "Event #", rowGet r "Event#", rowGet r "Event"] = none)
    (hcol : ∀ kv ∈ r, kv.1 ≠ "_event_id") :
    List.lookup "_event_id" (buildProps lat_key lon_key i r) = none := by
  have hF : truthyStr (eventChain r) = false := chain3_none h
  unfold buildProps withEvent
  rw [lookup_withExped_other _ _ _ (by decide), if_neg (by simp [hF]),
    lookup_dictSet_ne _ _ _ _ (by decide)]
  exact lookup_propsBase_none _ _ _ _ hcol

theorem lookup_exped_buildProps_some (lat_key lon_key : String) (i : ℕ) (r : Row)
    (v : String)
    (h : firstNonEmpty [rowGet r "Expedition #", rowGet r "Expedition#",
      rowGet r "Expedition"] = some v) :
    List.lookup "_expedition_id" (buildProps lat_key lon_key i r) =
      some (.vstr (pstrip v)) := by
  obtain ⟨hchain, hv⟩ := chain3_some h
  have hX : expeditionChain r = some v := hchain
  have hT : truthyStr (expeditionChain r) = true := by
    rw [hX]; simpa [truthyStr] using hv
  unfold buildProps withExped
  rw [if_pos hT, hX, Option.getD_some, lookup_dictSet_self]

theorem lookup_exped_buildProps_none (lat_key lon_key : String) (i : ℕ) (r : Row)
    (h : firstNonEmpty [rowGet r "Expedition #", rowGet r "Expedition#",
      rowGet r "Expedition"] = none)
    (hcol : ∀ kv ∈ r, kv.1 ≠ "_expedition_id") :
    List.lookup "_expedition_id" (buildProps lat_key lon_key i r) = none := by
  have hF : truthyStr (expeditionChain r) = false := chain3_none h
  unfold buildProps withExped
  rw [if_neg (by simp [hF]), lookup_withEvent_other _ _ _ (by decide),
    lookup_dictSet_ne _ _ _ _ (by decide)]
  exact lookup_propsBase_none _ _ _ _ hcol

/-! ### Lemmas about the row loop -/

theorem rowFeature_eq_some (lat_key lon_key : String) (i : ℕ) (r : Row) (lat lon : ℚ)
    (h1 : to_float (rowGet r lat_key) = some lat)
    (h2 : to_float (rowGet r lon_key) = some lon) :
    rowFeature lat_key lon_key i r =
      some (mkFeat lon lat (buildProps lat_key lon_key i r)) := by
  unfold rowFeature
  rw [h1, h2]

theorem rowFeature_isSome_iff (lat_key lon_key : String) (i : ℕ) (r : Row) :
    (rowFeature lat_key lon_key i r).isSome = true ↔
      ((to_float (rowGet r lat_key)).isSome = true ∧
       (to_float (rowGet r lon_key)).isSome = true) := by
  unfold rowFeature
  cases h1 : to_float (rowGet r lat_key) <;> cases h2 : to_float (rowGet r lon_key) <;> simp

theorem rowFeature_isNone_eq (lat_key lon_key : String) (i : ℕ) (r : Row) :
    (rowFeature lat_key lon_key i r).isNone = isSkipped lat_key lon_key r := by
  unfold rowFeature isSkipped
  cases h1 : to_float (rowGet r lat_key) <;> cases h2 : to_float (rowGet r lon_key) <;> simp

theorem rowSkipLog_eq_if (lat_key lon_key : String) (i : ℕ) (r : Row) :
    rowSkipLog lat_key lon_key i r =
      if isSkipped lat_key lon_key r = true then
        some (skipMsg i (rowGet r lat_key) (rowGet r lon_key)
          (rowGet r "Event #") (rowGet r "City"))
      else none := by
  unfold rowSkipLog isSkipped
  cases h1 : to_float (rowGet r lat_key) <;> cases h2 : to_float (rowGet r lon_key) <;> simp

/-- The accumulator loop, described declaratively: it appends exactly the
features, skip count and diagnostics of the rows, enumerated from the start
ordinal, in order. -/
theorem processRows_eq (lat_key lon_key : String) (rows : List Row) :
    ∀ (i : ℕ) (fs : List Feature) (sk : ℕ) (ls : List String),
      processRows lat_key lon_key i rows fs sk ls =
        (fs ++ (List.enumFrom i rows).filterMap (fun p => rowFeature lat_key lon_key p.1 p.2),
         sk + rows.countP (isSkipped lat_key lon_key),
         ls ++ (List.enumFrom i rows).filterMap (fun p => rowSkipLog lat_key lon_key p.1 p.2)) := by
  induction rows with
  | nil => intro i fs sk ls; simp [processRows, List.enumFrom]
  | cons r t ih =>
    intro i fs sk ls
    cases h1 : to_float (rowGet r lat_key) with
    | some lat =>
      cases h2 : to_float (rowGet r lon_key) with
      | some lon =>
        simp only [processRows, h1, h2]
        rw [ih]
        simp [List.enumFrom, rowFeature, rowSkipLog, isSkipped, h1, h2,
          List.countP_cons, List.append_assoc]
      | none =>
        simp only [processRows, h1, h2]
        rw [ih]
        simp [List.enumFrom, rowFeature, rowSkipLog, isSkipped, h1, h2,
          List.countP_cons, List.append_assoc]
        omega
    | none =>
      cases h2 : to_float (rowGet r lon_key) with
      | some lon =>
        simp only [processRows, h1, h2]
        rw [ih]
        simp [List.enumFrom, rowFeature, rowSkipLog, isSkipped, h1, h2,
          List.countP_cons, List.append_assoc]
        omega
      | none =>
        simp only [processRows, h1, h2]
        rw [ih]
        simp [List.enumFrom, rowFeature, rowSkipLog, isSkipped, h1, h2,
          List.countP_cons, List.append_assoc]
        omega

theorem featOrdinal_rowFeature {lat_key lon_key : String} {i : ℕ} {r : Row} {f : Feature}
    (h : rowFeature lat_key lon_key i r = some f) : featOrdinal f = some (i : ℤ) := by
  unfold rowFeature at h
  cases h1 : to_float (rowGet r lat_key) with
  | none => rw [h1] at h; simp at h
  | some lat =>
    cases h2 : to_float (rowGet r lon_key) with
    | none => rw [h1, h2] at h; simp at h
    | some lon =>
      rw [h1, h2] at h
      have hf : f = mkFeat lon lat (buildProps lat_key lon_key i r) := by
        injection h with h
        exact h.symm
      subst hf
      unfold featOrdinal mkFeat
      rw [lookup_row_buildProps]

theorem ordinal_ge (lat_key lon_key : String) :
    ∀ (rows : List Row) (i : ℕ) (x : ℤ),
      x ∈ ((List.enumFrom i rows).filterMap
        (fun p => rowFeature lat_key lon_key p.1 p.2)).filterMap featOrdinal →
      (i : ℤ) ≤ x := by
  intro rows
  induction rows with
  | nil => intro i x hx; simp [List.enumFrom] at hx
  | cons r t ih =>
    intro i x hx
    rw [show List.enumFrom i (r :: t) = (i, r) :: List.enumFrom (i + 1) t from by
      simp [List.enumFrom]] at hx
    cases hf : rowFeature lat_key lon_key i r with
    | none =>
      rw [List.filterMap_cons] at hx
      simp only [hf] at hx
      have := ih (i + 1) x hx
      omega
    | some f =>
      rw [List.filterMap_cons] at hx
      simp only [hf] at hx
      rw [List.filterMap_cons] at hx
      simp only [featOrdinal_rowFeature hf] at hx
      rcases List.mem_cons.mp hx with rfl | hx
      · exact le_refl _
      · have := ih (i + 1) x hx
        omega

/-- The recorded source ordinals of the kept features are strictly increasing:
features appear in source-row order. -/
theorem ordinal_pairwise (lat_key lon_key : String) :
    ∀ (rows : List Row) (i : ℕ),
      List.Pairwise (fun a b => a < b)
        (((List.enumFrom i rows).filterMap
          (fun p => rowFeature lat_key lon_key p.1 p.2)).filterMap featOrdinal) := by
  intro rows
  induction rows with
  | nil => intro i; simp [List.enumFrom]
  | cons r t ih =>
    intro i
    rw [show List.enumFrom i (r :: t) = (i, r) :: List.enumFrom (i + 1) t from by
      simp [List.enumFrom]]
    cases hf : rowFeature lat_key lon_key i r with
    | none =>
      rw [List.filterMap_cons]
      simp only [hf]
      exact ih (i + 1)
    | some f =>
      rw [List.filterMap_cons]
      simp only [hf]
      rw [List.filterMap_cons]
      simp only [featOrdinal_rowFeature hf]
      refine List.Pairwise.cons ?_ (ih (i + 1))
      intro x hx
      have := ordinal_ge lat_key lon_key t (i + 1) x hx
      omega

/-- Every row is either kept as a feature or counted as skipped. -/
theorem kept_skipped_length (lat_key lon_key : String) :
    ∀ (rows : List Row) (i : ℕ),
      ((List.enumFrom i rows).filterMap (fun p => rowFeature lat_key lon_key p.1 p.2)).length
        + rows.countP (isSkipped lat_key lon_key) = rows.length := by
  intro rows
  induction rows with
  | nil => intro i; simp [List.enumFrom]
  | cons r t ih =>
    intro i
    rw [show List.enumFrom i (r :: t) = (i, r) :: List.enumFrom (i + 1) t from by
      simp [List.enumFrom]]
    rw [List.filterMap_cons, List.countP_cons]
    cases hf : rowFeature lat_key lon_key i r with
    | none =>
      have hs : isSkipped lat_key lon_key r = true := by
        rw [← rowFeature_isNone_eq lat_key lon_key i r, hf]; rfl
      simp only [hs, if_true, List.length_cons]
      have := ih (i + 1)
      omega
    | some f =>
      have hs : isSkipped lat_key lon_key r = false := by
        rw [← rowFeature_isNone_eq lat_key lon_key i r, hf]; rfl
      simp [hs]
      have := ih (i + 1)
      omega

/-- `to_int` is `to_float` followed by truncation toward zero. -/
theorem to_int_eq_map_trunc (v : Option String) :
    to_int v = (to_float v).map qtrunc := by
  rcases v with _ | s
  · rfl
  · simp only [to_int, to_float]
    by_cases h : pstrip s = ""
    · simp [h]
    · simp only [h, if_false]
      cases pyFloat (stripCD (pstrip s)) <;> simp

/-- Order-sensitive characterisation of `pick_header`: it returns the alias
at the first declared position whose spelling occurs among the fieldnames. -/
theorem pick_header_first (fns : List String) :
    ∀ (al : List String) (i : ℕ) (a : String), al[i]? = some a → a ∈ fns →
      (∀ j b, j < i → al[j]? = some b → b ∉ fns) → pick_header fns al = some a := by
  intro al
  induction al with
  | nil => intro i a h; simp at h
  | cons x t ih =>
    intro i a h ha hmin
    cases i with
    | zero =>
      simp only [List.getElem?_cons_zero, Option.some.injEq] at h
      subst h
      simp [pick_header, ha]
    | succ n =>
      have hx : x ∉ fns := hmin 0 x (by omega) (by simp)
      simp only [pick_header, if_neg hx]
      exact ih n a (by simpa using h) ha
        (fun j b hj hb => hmin (j + 1) b (by omega) (by simpa using hb))

/-! ### The claims -/

/-- Claim C1: for every input row, a Feature appears in the output iff both
the latitude and the longitude cell coerce to floats; when either coercion
yields absent, no Feature is produced for that row, the skip counter
increments by exactly one, and a diagnostic line referencing the 1-based
ordinal of that row is emitted. -/
theorem claim_C1 (lat_key lon_key : String) (rows : List Row) :
    (processRows lat_key lon_key 1 rows [] 0 []).1 =
        (List.enumFrom 1 rows).filterMap (fun p => rowFeature lat_key lon_key p.1 p.2)
  ∧ (∀ i r, (rowFeature lat_key lon_key i r).isSome = true ↔
        ((to_float (rowGet r lat_key)).isSome = true ∧
         (to_float (rowGet r lon_key)).isSome = true))
  ∧ (processRows lat_key lon_key 1 rows [] 0 []).2.1 =
        rows.countP (isSkipped lat_key lon_key)
  ∧ (processRows lat_key lon_key 1 rows [] 0 []).2.2 =
        (List.enumFrom 1 rows).filterMap (fun p => rowSkipLog lat_key lon_key p.1 p.2)
  ∧ (∀ i r, rowSkipLog lat_key lon_key i r =
        if isSkipped lat_key lon_key r = true then
          some (skipMsg i (rowGet r lat_key) (rowGet r lon_key)
            (rowGet r "Event #") (rowGet r "City"))
        else none)
  ∧ (∀ i a b c d, ∃ rest, skipMsg i a b c d = "SKIPPED row " ++ toString i ++ rest)
  ∧ (processRows lat_key lon_key 1 rows [] 0 []).1.length +
        (processRows lat_key lon_key 1 rows [] 0 []).2.1 = rows.length := by
  have hp := processRows_eq lat_key lon_key rows 1 [] 0 []
  refine ⟨by rw [hp]; simp, rowFeature_isSome_iff lat_key lon_key,
    by rw [hp]; simp, by rw [hp]; simp, rowSkipLog_eq_if lat_key lon_key, ?_, ?_⟩
  · intro i a b c d
    refine ⟨": lat=" ++ pyRepr a ++ " lon=" ++ pyRepr b ++ " event=" ++ pyRepr c ++
      " city=" ++ pyRepr d, ?_⟩
    simp only [skipMsg, String.append_assoc]
  · rw [hp]
    simpa using kept_skipped_length lat_key lon_key rows 1

/-- Claim C2: a row whose two coordinate cells parse yields a Feature whose
coordinates are [longitude, latitude] — longitude first — and whose _row
property is the 1-based ordinal of the row. -/
theorem claim_C2 (lat_key lon_key : String) (i : ℕ) (r : Row) (lat lon : ℚ)
    (hlat : to_float (rowGet r lat_key) = some lat)
    (hlon : to_float (rowGet r lon_key) = some lon) :
    ∃ f, rowFeature lat_key lon_key i r = some f ∧
      f.coordinates = [lon, lat] ∧
      List.lookup "_row" f.properties = some (.vint (i : ℤ)) := by
  refine ⟨mkFeat lon lat (buildProps lat_key lon_key i r),
    rowFeature_eq_some lat_key lon_key i r lat lon hlat hlon, rfl, ?_⟩
  exact lookup_row_buildProps lat_key lon_key i r

/-- Witness for claim C2 at a concrete row. -/
theorem claim_C2_witness :
    ∃ f, rowFeature "Latitude" "Longitude" 1
        [("Latitude", some "30.27"), ("Longitude", some "-97.74")] = some f ∧
      f.coordinates = [mkRat (-9774) 100, mkRat 3027 100] ∧
      List.lookup "_row" f.properties = some (.vint (1 : ℤ)) :=
  claim_C2 "Latitude" "Longitude" 1
    [("Latitude", some "30.27"), ("Longitude", some "-97.74")]
    (mkRat 3027 100) (mkRat (-9774) 100) (by decide) (by decide)

/-- Counterexample to claim C3: the header "LATITUDE" means latitude and
differs from the listed alias "Latitude" only in capitalization, yet while
"Latitude" resolves, "LATITUDE" does not — resolution is not independent of
capitalization. -/
theorem claim_C3_counterexample :
    pick_header ["Latitude", "Longitude"] (HEADER_ALIASES "latitude") = some "Latitude"
  ∧ pick_header ["LATITUDE", "Longitude"] (HEADER_ALIASES "latitude") = none := by
  decide

/-- Claim C3 (amended): header resolution returns, for each coordinate field,
the first alias in declared list order present in the column set (earlier
aliases win), and it tolerates exactly the finitely many declared
spellings/capitalizations — each listed alias resolves — not arbitrary
capitalizations of a latitude-meaning header. -/
theorem claim_C3_amended :
    (∀ (fns al : List String) (i : ℕ) (a : String), al[i]? = some a → a ∈ fns →
        (∀ j b, j < i → al[j]? = some b → b ∉ fns) → pick_header fns al = some a)
  ∧ (∀ s ∈ HEADER_ALIASES "latitude", pick_header [s] (HEADER_ALIASES "latitude") = some s)
  ∧ (∀ s ∈ HEADER_ALIASES "longitude", pick_header [s] (HEADER_ALIASES "longitude") = some s)
  ∧ pick_header ["Lat", "Longitude"] (HEADER_ALIASES "latitude") = some "Lat"
  ∧ pick_header ["Lat", "Latitude"] (HEADER_ALIASES "latitude") = some "Latitude" :=
  ⟨pick_header_first, by decide, by decide, by decide, by decide⟩

/-- Witness for claim C3 (amended): the alias at declared position 1
resolves when it is the only matching header. -/
theorem claim_C3_witness :
    pick_header ["Lat"] (HEADER_ALIASES "latitude") = some "Lat" :=
  claim_C3_amended.1 ["Lat"] (HEADER_ALIASES "latitude") 1 "Lat" (by decide) (by decide)
    (by
      intro j b hj hb
      have hj0 : j = 0 := by omega
      subst hj0
      simp [HEADER_ALIASES] at hb
      subst hb
      decide)

/-- Claim C4: integer coercion trims, strips commas and currency symbols,
parses as a float and truncates toward zero, so "12.7" coerces to 12 (not an
error, not rounded); "1,234" in an integer-designated column coerces to the
integer 1234, and "$1,234.50" in the monetary column coerces to the float
1234.5. -/
theorem claim_C4 :
    (∀ v : Option String, to_int v = (to_float v).map qtrunc)
  ∧ to_float (some "12.7") = some (mkRat 127 10)
  ∧ to_int (some "12.7") = some 12
  ∧ to_int (some "12.9") = some 12
  ∧ to_int (some "-12.7") = some (-12)
  ∧ to_number_if_possible "Total Patients" (some "1,234") = .vint 1234
  ∧ to_number_if_possible "Total Value of Care" (some "$1,234.50") = .vfloat (mkRat 2469 2)
  ∧ (mkRat 2469 2 : ℚ) = 1234.5 :=
  ⟨to_int_eq_map_trunc, by decide, by decide, by decide, by decide, by decide, by decide,
    by rw [Rat.mkRat_eq_div]; norm_num⟩

/-- Claim C5: the per-column dispatch coerces "Total Value of Care" via float
coercion, the fixed count-like columns via integer coercion and all others to
trimmed text; a failed specialized coercion on non-blank text falls back to
the trimmed text, and a blank cell is always absent (never the empty
string). -/
theorem claim_C5 :
    (∀ s f, to_float (some s) = some f →
        to_number_if_possible "Total Value of Care" (some s) = .vfloat f)
  ∧ (∀ s, pstrip s ≠ "" → to_float (some s) = none →
        to_number_if_possible "Total Value of Care" (some s) = .vstr (pstrip s))
  ∧ (∀ k s n, k ∈ numeric_int_cols → to_int (some s) = some n →
        to_number_if_possible k (some s) = .vint n)
  ∧ (∀ k s, k ∈ numeric_int_cols → pstrip s ≠ "" → to_int (some s) = none →
        to_number_if_possible k (some s) = .vstr (pstrip s))
  ∧ (∀ k s, k ≠ "Total Value of Care" → k ∉ numeric_int_cols → pstrip s ≠ "" →
        to_number_if_possible k (some s) = .vstr (pstrip s))
  ∧ (∀ k, to_number_if_possible k none = .vnone)
  ∧ (∀ k s, to_number_if_possible k (some s) = .vnone ↔ pstrip s = "")
  ∧ (∀ k v, to_number_if_possible k v ≠ .vstr "") := by
  have key_ne : ∀ k, k ∈ numeric_int_cols → k ≠ "Total Value of Care" := by
    intro k hk he
    subst he
    exact absurd hk (by decide)
  have nonempty_of_float : ∀ s f, to_float (some s) = some f → pstrip s ≠ "" := by
    intro s f hf h0
    rw [show to_float (some s) = none from by simp [to_float, h0]] at hf
    cases hf
  have nonempty_of_int : ∀ s n, to_int (some s) = some n → pstrip s ≠ "" := by
    intro s n hn h0
    rw [show to_int (some s) = none from by simp [to_int, h0]] at hn
    cases hn
  refine ⟨?_, ?_, ?_, ?_, ?_, fun k => rfl, ?_, ?_⟩
  · intro s f hf
    have hne := nonempty_of_float s f hf
    simp [to_number_if_possible, hne, to_float_pstrip, hf]
  · intro s hne hf
    simp [to_number_if_possible, hne, to_float_pstrip, hf]
  · intro k s n hk hn
    have hne := nonempty_of_int s n hn
    simp [to_number_if_possible, hne, key_ne k hk, hk, to_int_pstrip, hn]
  · intro k s hk hne hn
    simp [to_number_if_possible, hne, key_ne k hk, hk, to_int_pstrip, hn]
  · intro k s hk1 hk2 hne
    simp [to_number_if_possible, hne, hk1, hk2]
  · intro k s
    constructor
    · intro h
      by_contra hne
      revert h
      simp only [to_number_if_possible, if_neg hne]
      split_ifs with h1 h2
      · cases to_float (some (pstrip s)) <;> simp
      · cases to_int (some (pstrip s)) <;> simp
      · simp
    · intro h
      simp [to_number_if_possible, h]
  · intro k v
    rcases v with _ | s
    · simp [to_number_if_possible]
    · by_cases hne : pstrip s = ""
      · simp [to_number_if_possible, hne]
      · simp only [to_number_if_possible, if_neg hne]
        split_ifs with h1 h2
        · cases to_float (some (pstrip s)) <;> simp [hne]
        · cases to_int (some (pstrip s)) <;> simp [hne]
        · simp [hne]

/-- Witness for claim C5: the monetary column keeps cents on a concrete
parsable cell. -/
theorem claim_C5_witness :
    to_number_if_possible "Total Value of Care" (some "$1.5") = .vfloat (mkRat 3 2) :=
  claim_C5.1 "$1.5" (mkRat 3 2) (by decide)

/-- Counterexample to claim C6: a kept row with no Event spelling at all but
with a column literally named "_event_id" yields a Feature whose properties
contain the key "_event_id" — the key is not absent although no spelling has
a non-empty value. -/
theorem claim_C6_counterexample :
    rowGet rowWithEventKey "Event #" = none
  ∧ rowGet rowWithEventKey "Event#" = none
  ∧ rowGet rowWithEventKey "Event" = none
  ∧ (rowFeature "Latitude" "Longitude" 1 rowWithEventKey).map
      (fun f => List.lookup "_event_id" f.properties) = some (some (.vstr "x")) := by
  decide

/-- Claim C6 (amended): _event_id (and analogously _expedition_id) is set to
the trimmed text of the first of the three spellings present with a non-empty
value; when no spelling has a non-empty value the key is absent from the
properties, unless the input row itself carries a column literally named
"_event_id" (resp. "_expedition_id"), whose coerced value then remains under
that key. -/
theorem claim_C6_amended :
    (∀ (lat_key lon_key : String) (i : ℕ) (r : Row) (v : String),
        firstNonEmpty [rowGet r "Event #", rowGet r "Event#", rowGet r "Event"] = some v →
        List.lookup "_event_id" (buildProps lat_key lon_key i r) = some (.vstr (pstrip v)))
  ∧ (∀ (lat_key lon_key : String) (i : ℕ) (r : Row),
        firstNonEmpty [rowGet r "Event #", rowGet r "Event#", rowGet r "Event"] = none →
        (∀ kv ∈ r, kv.1 ≠ "_event_id") →
        List.lookup "_event_id" (buildProps lat_key lon_key i r) = none)
  ∧ (∀ (lat_key lon_key : String) (i : ℕ) (r : Row) (v : String),
        firstNonEmpty [rowGet r "Expedition #", rowGet r "Expedition#",
          rowGet r "Expedition"] = some v →
        List.lookup "_expedition_id" (buildProps lat_key lon_key i r) =
          some (.vstr (pstrip v)))
  ∧ (∀ (lat_key lon_key : String) (i : ℕ) (r : Row),
        firstNonEmpty [rowGet r "Expedition #", rowGet r "Expedition#",
          rowGet r "Expedition"] = none →
        (∀ kv ∈ r, kv.1 ≠ "_expedition_id") →
        List.lookup "_expedition_id" (buildProps lat_key lon_key i r) = none) :=
  ⟨lookup_event_buildProps_some, lookup_event_buildProps_none,
   lookup_exped_buildProps_some, lookup_exped_buildProps_none⟩

/-- Witness for claim C6 (amended): the second spelling supplies the id,
trimmed. -/
theorem claim_C6_witness :
    List.lookup "_event_id"
      (buildProps "Latitude" "Longitude" 1 [("Event#", some " 7 ")]) =
      some (.vstr "7") :=
  claim_C6_amended.1 "Latitude" "Longitude" 1 [("Event#", some " 7 ")] " 7 " (by decide)

/-- Claim C7: each fatal setup condition — no input candidate exists (both
candidates are then listed), no header row, or unresolvable coordinate
columns (the actual headers are then reported) — makes the run stop with the
matching fatal error, exit status 1, and no output written. -/
theorem claim_C7 (env : Env) :
    ((∀ c ∈ INPUT_CANDIDATES, env.pathExists c = false) →
        runMain env = .error (.noInput INPUT_CANDIDATES)
      ∧ (∀ c ∈ INPUT_CANDIDATES, (" - " ++ c) ∈ fatalLines (.noInput INPUT_CANDIDATES)))
  ∧ (∀ name rows, find_input_file env.pathExists = some name →
        env.readCsv name = (none, rows) → runMain env = .error .noHeaders)
  ∧ (∀ name fns rows, find_input_file env.pathExists = some name →
        env.readCsv name = (some fns, rows) → fns ≠ [] →
        (pick_header fns (HEADER_ALIASES "latitude") = none ∨
         pick_header fns (HEADER_ALIASES "longitude") = none) →
        runMain env = .error (.noLatLon fns)
      ∧ ("Found headers: " ++ toString fns) ∈ fatalLines (.noLatLon fns))
  ∧ (∀ e : Fatal, exitCode (.error e) = 1 ∧ writes (.error e) = []) := by
  refine ⟨?_, ?_, ?_, fun e => ⟨rfl, rfl⟩⟩
  · intro hall
    have h0 : find_input_file env.pathExists = none := by
      unfold find_input_file
      rw [List.find?_eq_none]
      intro x hx
      simp [hall x hx]
    refine ⟨by unfold runMain; rw [h0], ?_⟩
    intro c hc
    simp only [fatalLines, List.mem_cons, List.mem_map]
    exact Or.inr ⟨c, hc, rfl⟩
  · intro name rows h1 h2
    simp [runMain, h1, h2]
  · intro name fns rows h1 h2 hne hpick
    have hie : ¬(fns.isEmpty = true) := by simp [List.isEmpty_iff, hne]
    constructor
    · rcases hLat : pick_header fns (HEADER_ALIASES "latitude") with _ | lk <;>
        rcases hLon : pick_header fns (HEADER_ALIASES "longitude") with _ | lo <;>
        simp only [runMain, h1, h2, if_neg hie, hLat, hLon]
      rcases hpick with hp | hp
      · exact absurd (hLat.symm.trans hp) (by simp)
      · exact absurd (hLon.symm.trans hp) (by simp)
    · simp [fatalLines]

/-- Witness for claim C7: in an environment with no files at all, the run
fails with the missing-input error. -/
theorem claim_C7_witness :
    runMain envNoFiles = .error (.noInput INPUT_CANDIDATES) :=
  ((claim_C7 envNoFiles).1 (by intro c _; rfl)).1

/-- Claim C8: the output document of a successful run is a single record of type
"FeatureCollection" whose features are exactly the features of the kept rows, in
source-row order (their recorded source ordinals are strictly increasing). -/
theorem claim_C8 (env : Env) (out : MainOk) (h : runMain env = .ok out) :
    out.doc.dtype = "FeatureCollection"
  ∧ ∃ lat_key lon_key rows,
      out.doc.features =
        (List.enumFrom 1 rows).filterMap (fun p => rowFeature lat_key lon_key p.1 p.2)
    ∧ List.Pairwise (fun a b => a < b) (out.doc.features.filterMap featOrdinal) := by
  rcases hf : find_input_file env.pathExists with _ | name
  · simp only [runMain, hf] at h
    exact absurd h (by simp)
  rcases hcsv : env.readCsv name with ⟨fnsO, rows⟩
  rcases fnsO with _ | fns
  · simp only [runMain, hf, hcsv] at h
    exact absurd h (by simp)
  by_cases hie : fns.isEmpty = true
  · simp only [runMain, hf, hcsv, hie, if_true] at h
    exact absurd h (by simp)
  rcases hLat : pick_header fns (HEADER_ALIASES "latitude") with _ | lk <;>
    rcases hLon : pick_header fns (HEADER_ALIASES "longitude") with _ | lo <;>
    simp only [runMain, hf, hcsv, if_neg hie, hLat, hLon] at h
  · exact absurd h (by simp)
  · exact absurd h (by simp)
  · exact absurd h (by simp)
  injection h with h
  subst h
  have hp := processRows_eq lk lo rows 1 [] 0 []
  refine ⟨rfl, lk, lo, rows, by rw [hp]; simp, ?_⟩
  have hfeat : (processRows lk lo 1 rows [] 0 []).1 =
      (List.enumFrom 1 rows).filterMap (fun p => rowFeature lk lo p.1 p.2) := by
    rw [hp]; simp
  show List.Pairwise (fun a b => a < b)
    ((processRows lk lo 1 rows [] 0 []).1.filterMap featOrdinal)
  rw [hfeat]
  exact ordinal_pairwise lk lo rows 1

/-- Witness for claim C8 on a concrete environment with an empty table. -/
theorem claim_C8_witness :
    outEmptyOk.doc.dtype = "FeatureCollection" ∧
    ∃ lat_key lon_key rows,
      outEmptyOk.doc.features =
        (List.enumFrom 1 rows).filterMap (fun p => rowFeature lat_key lon_key p.1 p.2)
    ∧ List.Pairwise (fun a b => a < b) (outEmptyOk.doc.features.filterMap featOrdinal) :=
  claim_C8 envEmptyOk outEmptyOk (by decide)

/-- Claim C9: the transform is deterministic — it is a function of the
environment alone, so two runs on identical input produce identical results,
including the serialized output bytes (features and property keys are kept
in their construction order by the ordered-dict model). -/
theorem claim_C9 (e1 e2 : Env) (h : e1 = e2) :
    runMain e1 = runMain e2 ∧ runBytes (runMain e1) = runBytes (runMain e2) := by
  subst h
  exact ⟨rfl, rfl⟩

/-- Witness for claim C9 at a concrete environment. -/
theorem claim_C9_witness :
    runMain envEmptyOk = runMain envEmptyOk ∧
    runBytes (runMain envEmptyOk) = runBytes (runMain envEmptyOk) :=
  claim_C9 envEmptyOk envEmptyOk rfl

/-- Claim C10: comma and dollar stripping removes every occurrence anywhere
in the string — float coercion equals parsing the input with all ',' and '$'
deleted, so "12,34" coerces to 1234 rather than being rejected, and a
trailing '$' or interior commas are deleted as well. -/
theorem claim_C10 :
    (∀ s : String, to_float (some s) = pyFloat (stripCD s))
  ∧ (∀ s : String, (stripCD s).data = s.data.filter keepCD)
  ∧ to_float (some "12,34") = some 1234
  ∧ to_float (some "1,2.5") = some (mkRat 25 2)
  ∧ to_float (some "12$") = some 12 :=
  ⟨to_float_eq_pyFloat_stripCD, fun s => rfl, by decide, by decide, by decide⟩

example : to_float (some " 12.7 ") = some (mkRat 127 10) := by decide
example : to_float (some "$1,234.50") = some (mkRat 2469 2) := by decide
example : to_float (some "") = none := by decide
example : to_float (some "abc") = none := by decide
example : to_int (some "12.7") = some 12 := by decide
example : to_int (some "1,234") = some 1234 := by decide
example : to_int (some "-12.7") = some (-12) := by decide
example : to_float (some "-97.74") = some (mkRat (-9774) 100) := by decide
example : to_float (some "1e3") = some 1000 := by decide
example : to_float (some "+.5e2") = some 50 := by decide
example : to_float (some "12,34") = some 1234 := by decide
example : to_number_if_possible "Total Patients" (some "42") = .vint 42 := by decide
example : to_number_if_possible "City" (some " Austin ") = .vstr "Austin" := by decide
example : to_number_if_possible "Total Value of Care" (some "$1,200.50") = .vfloat (mkRat 2401 2) := by decide

example : qToDec (mkRat 2401 2) = "1200.5" := by decide
example : qToDec (mkRat (-9774) 100) = "-97.74" := by decide
example : qToDec (30 : ℚ) = "30.0" := by decide
example : pick_header ["Event #", "Lat", "Long"] (HEADER_ALIASES "latitude") = some "Lat" := by decide
example : pick_header ["Lat", "Latitude"] (HEADER_ALIASES "latitude") = some "Latitude" := by decide
example :
    runMain { pathExists := fun _ => false, readCsv := fun _ => (none, []) } =
      .error (.noInput INPUT_CANDIDATES) := by decide
example :
    runMain { pathExists := fun n => n == "master clinic mapbox file.csv",
              readCsv := fun _ => (some ["Latitude", "Longitude"], []) } =
      .ok { doc := { dtype := "FeatureCollection", features := [] }
            outName := OUTPUT_FILE
            outBytes := "\x7b\x22type\x22: \x22FeatureCollection\x22, \x22features\x22: []\x7d"
            logs := []
            summary := ["OK: Wrote MapBox Dataset.geojson",
                        "Features: 0  Skipped (missing lat/lon): 0"]
            featureCount := 0
            skippedCount := 0 } := by decide
example :
    (processRows "Latitude" "Longitude" 1
      [[("Latitude", some "30.27"), ("Longitude", some "-97.74"), ("City", some "Austin")],
       [("Latitude", some ""), ("Longitude", some "-96.8"), ("City", some "Dallas")]]
      [] 0 []).2.1 = 1 := by decide
example :
    (processRows "Latitude" "Longitude" 1
      [[("Latitude", some ""), ("Longitude", some "-96.8"), ("City", some "Dallas")]]
      [] 0 []).2.2 =
      ["SKIPPED row 1: lat=\x27\x27 lon=\x27-96.8\x27 event=None city=\x27Dallas\x27"] := by decide
example :
    buildProps "Latitude" "Longitude" 1
      [("Event #", some "100"), ("Latitude", some "30.27"), ("Longitude", some "-97.74"),
       ("Total Value of Care", some "$1,200.50"), ("Total Patients", some "42")] =
      [("Event #", .vint 100), ("Total Value of Care", .vfloat (mkRat 2401 2)),
       ("Total Patients", .vint 42), ("_row", .vint 1), ("_event_id", .vstr "100")] := by decide
